import Mathlib

/-
Verification of the DNS_Rust recursive resolver.

The development shallowly embeds the Rust sources:
  src/byte_packet_buffer.rs   (wire buffer and the qname codec)
  src/dns_packet.rs           (packet assembly and referral helpers)
  src/dns_packet/dns_header.rs
  src/dns_packet/dns_questions.rs
  src/dns_packet/dns_questions/dns_record_type.rs
  src/dns_packet/dns_record.rs
  src/main.rs                 (query service shell and recursive lookup)

Modelling conventions:
  - Rust `String` is modelled as its UTF-8 byte sequence, `List Nat`
    (each entry a byte value).  `str.len`, `split` on the dot byte, `as_bytes`,
    `ends_with` are byte operations on that list, exactly as in Rust.
  - Machine integers are `Nat` with the `as u8` / `as u16` casts written
    out as `% 256` / `% 65536` at the corresponding places.
  - Fallible Rust functions returning `Result<_, SimpleError>` become
    functions into `RRes`, which also carries the mutated buffer
    (`&mut self` state) on both success and failure, and distinguishes
    a Rust panic (`expect`, out-of-bounds indexing, usize underflow)
    from a returned `SimpleError`.
-/

set_option maxRecDepth 100000

/-- Equality of `Except` values is decidable componentwise (used to state
concrete evaluations of the resolver and the query service). -/
instance [DecidableEq ε] [DecidableEq α] : DecidableEq (Except ε α) := fun x y =>
  match x, y with
  | .error a, .error b =>
    if h : a = b then isTrue (by rw [h])
    else isFalse (by intro he; cases he; exact h rfl)
  | .error _, .ok _ => isFalse (by intro he; cases he)
  | .ok _, .error _ => isFalse (by intro he; cases he)
  | .ok a, .ok b =>
    if h : a = b then isTrue (by rw [h])
    else isFalse (by intro he; cases he; exact h rfl)

/-- A Rust string, as its sequence of UTF-8 byte values. -/
abbrev StrB := List Nat

/-- Failure channel: `err` is a returned `SimpleError`; `crash` is a Rust
panic (from `expect`, slice indexing out of bounds, or usize underflow),
which no caller in this program catches. -/
inductive RErr where
  | err (msg : String) : RErr
  | crash (msg : String) : RErr
deriving DecidableEq, Repr

/-- The wire buffer of `byte_packet_buffer.rs`: 512 raw bytes plus a cursor. -/
structure BytePacketBuffer where
  buf : List Nat
  pos : Nat
deriving DecidableEq, Repr

/-- Result of a buffer operation: the value or the error, together with the
buffer state (Rust mutates through `&mut self`, so the state survives an
`Err` return as well). -/
inductive RRes (α : Type) where
  | ok (a : α) (b : BytePacketBuffer) : RRes α
  | err (e : RErr) (b : BytePacketBuffer) : RRes α
deriving DecidableEq, Repr

/-- State-passing monad for buffer operations. -/
def RunM (α : Type) : Type := BytePacketBuffer → RRes α

instance : Monad RunM where
  pure a := fun b => .ok a b
  bind m f := fun b =>
    match m b with
    | .ok a b2 => f a b2
    | .err e b2 => .err e b2

/-- Fail with a `SimpleError` (Rust `bail!`). -/
def throwErr (msg : String) : RunM α := fun b => .err (.err msg) b

/-- Abort with a panic. -/
def throwCrash (msg : String) : RunM α := fun b => .err (.crash msg) b

/-- Rust usize subtraction: panics on underflow (debug overflow check /
out-of-range index on the wrapped value). -/
def usizeSub (a b : Nat) : RunM Nat := fun s =>
  if a < b then .err (.crash "attempt to subtract with overflow") s
  else .ok (a - b) s

/-- Value of a result, `none` on error. -/
def resVal : RRes α → Option α
  | .ok a _ => some a
  | .err _ _ => none

/-- Error of a result, `none` on success. -/
def resErr : RRes α → Option RErr
  | .ok _ _ => none
  | .err e _ => some e

/-- Cursor position of the buffer state carried by a result. -/
def resPos : RRes α → Nat
  | .ok _ b => b.pos
  | .err _ b => b.pos

namespace BytePacketBuffer

/-- `BytePacketBuffer::new`: 512 zero bytes, cursor at 0. -/
def new : BytePacketBuffer := ⟨List.replicate 512 0, 0⟩

/-- `pos(&self)`. -/
def posM : RunM Nat := fun b =>
  match b with
  | ⟨buf, pos⟩ => .ok pos ⟨buf, pos⟩

/-- `steps`: `self.pos += steps; Ok(())` — the source performs no bounds
check here. -/
def steps (n : Nat) : RunM Unit := fun b =>
  match b with
  | ⟨buf, pos⟩ => .ok () ⟨buf, pos + n⟩

/-- `seek`: `self.pos = pos; Ok(())` — no bounds check in the source. -/
def seek (p : Nat) : RunM Unit := fun b =>
  match b with
  | ⟨buf, _⟩ => .ok () ⟨buf, p⟩

/-- `read`: one byte at the cursor, advancing it; fails at or past 512. -/
def read : RunM Nat := fun b =>
  match b with
  | ⟨buf, pos⟩ =>
    if 512 ≤ pos then .err (.err "End of buffer") ⟨buf, pos⟩
    else .ok (buf.getD pos 0) ⟨buf, pos + 1⟩

/-- `get(pos)`: non-advancing read; fails for `pos >= 512`. -/
def get (p : Nat) : RunM Nat := fun b =>
  match b with
  | ⟨buf, pos⟩ =>
    if 512 ≤ p then .err (.err "End of buffer") ⟨buf, pos⟩
    else .ok (buf.getD p 0) ⟨buf, pos⟩

/-- `get_range(start, len)`: fails when `start + len >= 512`. -/
def get_range (start len : Nat) : RunM (List Nat) := fun b =>
  match b with
  | ⟨buf, pos⟩ =>
    if 512 ≤ start + len then .err (.err "End of buffer") ⟨buf, pos⟩
    else .ok ((buf.drop start).take len) ⟨buf, pos⟩

/-- `read_u16`: pre-checks `pos >= 511`, then two `read`s combined by
`(hi << 8) ^ lo` as in the source. -/
def read_u16 : RunM Nat := fun b =>
  if 511 ≤ b.pos then .err (.err "End of buffer") b
  else
    match read b with
    | .err e b2 => .err e b2
    | .ok hi b2 =>
      match read b2 with
      | .err e b3 => .err e b3
      | .ok lo b3 => .ok ((hi <<< 8) ^^^ lo) b3

/-- `read_u32`: pre-checks `pos >= 509`, then two `read_u16`s combined by
`(hi << 16) ^ lo`. -/
def read_u32 : RunM Nat := fun b =>
  if 509 ≤ b.pos then .err (.err "End of buffer") b
  else
    match read_u16 b with
    | .err e b2 => .err e b2
    | .ok hi b2 =>
      match read_u16 b2 with
      | .err e b3 => .err e b3
      | .ok lo b3 => .ok ((hi <<< 16) ^^^ lo) b3

/-- `write(val)`: store a byte at the cursor and advance; fails at or past
512. -/
def write (v : Nat) : RunM Unit := fun b =>
  match b with
  | ⟨buf, pos⟩ =>
    if 512 ≤ pos then .err (.err "End of buffer") ⟨buf, pos⟩
    else .ok () ⟨buf.set pos v, pos + 1⟩

/-- `write_u16`: big-endian, the `as u8` casts written out. -/
def write_u16 (v : Nat) : RunM Unit := fun b =>
  match write ((v >>> 8) % 256) b with
  | .err e b2 => .err e b2
  | .ok _ b2 => write (v &&& 0xFF) b2

/-- `write_u32`: big-endian, the `as u8` casts written out. -/
def write_u32 (v : Nat) : RunM Unit := fun b =>
  match write ((v >>> 24) % 256) b with
  | .err e b2 => .err e b2
  | .ok _ b2 =>
    match write ((v >>> 16) &&& 0xFF) b2 with
    | .err e b3 => .err e b3
    | .ok _ b3 =>
      match write ((v >>> 8) &&& 0xFF) b3 with
      | .err e b4 => .err e b4
      | .ok _ b4 => write (v &&& 0xFF) b4

/-- `set(pos, val)`: in-place overwrite, no cursor move.  The source indexes
`self.buf[pos]` without a check, so an out-of-range position is a panic. -/
def set (p v : Nat) : RunM Unit := fun b =>
  match b with
  | ⟨buf, pos⟩ =>
    if 512 ≤ p then .err (.crash "index out of bounds") ⟨buf, pos⟩
    else .ok () ⟨buf.set p v, pos⟩

/-- `set_u16(pos, val)`: two `set`s, big-endian. -/
def set_u16 (p v : Nat) : RunM Unit := fun b =>
  match set p ((v >>> 8) % 256) b with
  | .err e b2 => .err e b2
  | .ok _ b2 => set (p + 1) (v &&& 0xFF) b2

end BytePacketBuffer

/-- Continuation byte of a multi-byte UTF-8 sequence. -/
def isCont (b : Nat) : Bool := 0x80 ≤ b && b ≤ 0xBF

/-- UTF-8 validity of a byte sequence, the check performed by Rust
`str::from_utf8` (RFC 3629: no overlong forms, no surrogates, at most
U+10FFFF). -/
def utf8Valid : List Nat → Bool
  | [] => true
  | b :: rest =>
    if b ≤ 0x7F then utf8Valid rest
    else
      match rest with
      | [] => false
      | c1 :: rest1 =>
        if 0xC2 ≤ b && b ≤ 0xDF then isCont c1 && utf8Valid rest1
        else
          match rest1 with
          | [] => false
          | c2 :: rest2 =>
            if b == 0xE0 then (0xA0 ≤ c1 && c1 ≤ 0xBF) && isCont c2 && utf8Valid rest2
            else if (0xE1 ≤ b && b ≤ 0xEC) || b == 0xEE || b == 0xEF then
              isCont c1 && isCont c2 && utf8Valid rest2
            else if b == 0xED then (0x80 ≤ c1 && c1 ≤ 0x9F) && isCont c2 && utf8Valid rest2
            else
              match rest2 with
              | [] => false
              | c3 :: rest3 =>
                if b == 0xF0 then
                  (0x90 ≤ c1 && c1 ≤ 0xBF) && isCont c2 && isCont c3 && utf8Valid rest3
                else if 0xF1 ≤ b && b ≤ 0xF3 then
                  isCont c1 && isCont c2 && isCont c3 && utf8Valid rest3
                else if b == 0xF4 then
                  (0x80 ≤ c1 && c1 ≤ 0x8F) && isCont c2 && isCont c3 && utf8Valid rest3
                else false

/-- Byte-level model of Rust `str::to_lowercase`: ASCII letters are mapped
to their lowercase forms.  (Rust additionally applies the Unicode case
table to non-ASCII characters; every domain byte that the claims exercise
is ASCII, where this model is exact.) -/
def lowercaseBytes (s : List Nat) : List Nat :=
  s.map fun b => if 65 ≤ b ∧ b ≤ 90 then b + 32 else b

namespace BytePacketBuffer

/-- `max_jumps` of `read_qname`. -/
def max_jumps : Nat := 5

/-- The `bail!` message of the jump limit (`format!` expanded). -/
def jumpLimitMsg : String := "Limit of " ++ toString max_jumps ++ " jumps exceeded"

/-- Fuel bound for the `read_qname` loop, a model artifact: the source loop
terminates because the jump count is capped at 5 and the local position
strictly increases between jumps, so 4096 iterations are never exhausted on
a 512-byte buffer. -/
def qnameFuel : Nat := 4096

/-- The loop body of `read_qname`.  Arguments mirror the source locals:
the local position `shared_pos`, the `jumped` flag, `jumps_performed`, the
current delimiter (empty before the first label, "." afterwards), and the
accumulated output string.  Returns the output together with the final
local position and the jump flag, for the cursor fix-up after the loop. -/
def read_qnameGo : Nat → Nat → Bool → Nat → Bool → StrB → RunM (StrB × Nat × Bool)
  | 0, _, _, _, _, _ => throwErr "model fuel exhausted"
  | fuel + 1, shared_pos, jumped, jumps_performed, delimIsDot, outstr =>
    if max_jumps < jumps_performed then throwErr jumpLimitMsg
    else do
      let len ← get shared_pos
      if len &&& 0xC0 == 0xC0 then do
        if !jumped then seek (shared_pos + 2)
        let second_byte ← get (shared_pos + 1)
        let offset := ((len ^^^ 0x00C0) <<< 8) ||| second_byte
        read_qnameGo fuel offset true (jumps_performed + 1) delimIsDot outstr
      else
        let shared_pos2 := shared_pos + 1
        if len == 0 then pure (outstr, shared_pos2, jumped)
        else do
          let outstr2 := outstr ++ (if delimIsDot then [46] else [])
          let buf_slice ← get_range shared_pos2 len
          if utf8Valid buf_slice then
            read_qnameGo fuel (shared_pos2 + len) jumped jumps_performed true
              (outstr2 ++ lowercaseBytes buf_slice)
          else throwCrash "bytes are not valid UTF-8"

/-- `read_qname`: decode a domain name with compression-pointer support.
On the first jump the shared cursor is frozen two bytes past the pointer;
without a jump it is moved one past the terminating zero label. -/
def read_qname : RunM StrB := do
  let p ← posM
  let r ← read_qnameGo qnameFuel p false 0 false []
  if !r.2.2 then seek r.2.1
  pure r.1

/-- Writer of one label run for `write_qname`. -/
def write_bytes : List Nat → RunM Unit
  | [] => pure ()
  | x :: xs => do
    write x
    write_bytes xs

/-- The label loop of `write_qname`: length byte (failing above 63) then
raw label bytes. -/
def write_labels : List StrB → RunM Unit
  | [] => pure ()
  | label :: rest => do
    let length := label.length
    if 0x3f < length then throwErr "Single label exceeds 63 characters of length"
    else do
      write length
      write_bytes label
      write_labels rest

/-- `write_qname`: split on `.`, emit length-prefixed labels, then a zero
terminator. -/
def write_qname (qname : StrB) : RunM Unit := do
  write_labels (qname.splitOn 46)
  write 0

end BytePacketBuffer

/-- `RecordType` of `dns_record_type.rs`. -/
inductive RecordType where
  | UNKNOWN (num : Nat) : RecordType
  | A : RecordType
  | NS : RecordType
  | CNAME : RecordType
  | MX : RecordType
  | AAAA : RecordType
deriving DecidableEq, Repr

/-- `RecordType::to_num`. -/
def RecordType.to_num : RecordType → Nat
  | .A => 1
  | .UNKNOWN num => num
  | .NS => 2
  | .CNAME => 5
  | .MX => 15
  | .AAAA => 28

/-- `RecordType::from_num`. -/
def RecordType.from_num (num : Nat) : RecordType :=
  match num with
  | 1 => .A
  | 2 => .NS
  | 5 => .CNAME
  | 15 => .MX
  | 28 => .AAAA
  | _ => .UNKNOWN num

/-- Modelled from the spec: the source file `dns_res_code.rs` (module
`dns_res_code`, re-exported by `dns_header.rs`) is not present under src;
only its uses are.  The spec names the codes "no error", "format error",
"server failure" and "name does not exist" with the RFC 1035 4-bit values,
read back via `from_num` on the low nibble of the second flag byte and
written via the enum discriminant cast `as u8`. -/
inductive ResultCode where
  | NOERROR : ResultCode
  | FORMERR : ResultCode
  | SERVFAIL : ResultCode
  | NXDOMAIN : ResultCode
deriving DecidableEq, Repr

/-- Discriminant of `ResultCode` (the `as u8` cast). -/
def ResultCode.toNum : ResultCode → Nat
  | .NOERROR => 0
  | .FORMERR => 1
  | .SERVFAIL => 2
  | .NXDOMAIN => 3

/-- Modelled from the spec: `ResultCode::from_num`, mapping unknown values
to `NOERROR`. -/
def ResultCode.from_num (num : Nat) : ResultCode :=
  match num with
  | 1 => .FORMERR
  | 2 => .SERVFAIL
  | 3 => .NXDOMAIN
  | _ => .NOERROR

/-- `DnsHeader` of `dns_header.rs`.  Integer fields are `Nat` carrying u16
(or u8 for `opcode`) values. -/
structure DnsHeader where
  id : Nat
  recursion_desired : Bool
  truncated_message : Bool
  authoritative_answer : Bool
  opcode : Nat
  response : Bool
  rescode : ResultCode
  checking_disabled : Bool
  authed_data : Bool
  z : Bool
  recursion_available : Bool
  questions : Nat
  answers : Nat
  authoritative_entries : Nat
  resource_entries : Nat
deriving DecidableEq, Repr

/-- `DnsHeader::new`. -/
def DnsHeader.new : DnsHeader :=
  ⟨0, false, false, false, 0, false, .NOERROR, false, false, false, false, 0, 0, 0, 0⟩

/-- The `as u8` cast of a Rust bool. -/
def bitOf (b : Bool) : Nat := if b then 1 else 0

/-- The first flag byte assembled by `DnsHeader::write` (u8 arithmetic:
the opcode shift is taken mod 256). -/
def DnsHeader.firstFlags (h : DnsHeader) : Nat :=
  (bitOf h.response <<< 7) ||| ((h.opcode <<< 3) % 256) |||
    (bitOf h.authoritative_answer <<< 2) ||| (bitOf h.truncated_message <<< 1) |||
    bitOf h.recursion_desired

/-- The second flag byte assembled by `DnsHeader::write`. -/
def DnsHeader.secondFlags (h : DnsHeader) : Nat :=
  h.rescode.toNum ||| (bitOf h.checking_disabled <<< 4) |||
    (bitOf h.authed_data <<< 5) ||| (bitOf h.z <<< 6) |||
    (bitOf h.recursion_available <<< 7)

/-- The field assignments `DnsHeader::read` performs from the first flag
byte. -/
def DnsHeader.applyFirstFlags (h : DnsHeader) (f : Nat) : DnsHeader :=
  { h with
    response := (f &&& 128) == 128
    opcode := (f &&& 120) >>> 3
    authoritative_answer := (f &&& 4) == 4
    truncated_message := (f &&& 2) == 2
    recursion_desired := (f &&& 1) == 1 }

/-- The field assignments `DnsHeader::read` performs from the second flag
byte. -/
def DnsHeader.applySecondFlags (h : DnsHeader) (f : Nat) : DnsHeader :=
  { h with
    recursion_available := (f &&& 128) == 128
    z := decide (0 < f &&& 64)
    checking_disabled := decide (0 < f &&& 16)
    authed_data := decide (0 < f &&& 32)
    rescode := ResultCode.from_num (f &&& 0x0F) }

/-- `DnsHeader::read`: id, the two flag bytes, then the four counts.  The
source overwrites every field of `self`, so the result is independent of
the prior header value. -/
def DnsHeader.read : RunM DnsHeader := do
  let idv ← BytePacketBuffer.read_u16
  let first_flags ← BytePacketBuffer.read
  let second_flags ← BytePacketBuffer.read
  let q ← BytePacketBuffer.read_u16
  let a ← BytePacketBuffer.read_u16
  let au ← BytePacketBuffer.read_u16
  let r ← BytePacketBuffer.read_u16
  pure { (DnsHeader.new.applyFirstFlags first_flags).applySecondFlags second_flags with
         id := idv, questions := q, answers := a,
         authoritative_entries := au, resource_entries := r }

/-- `DnsHeader::write`. -/
def DnsHeader.write (h : DnsHeader) : RunM Unit := do
  BytePacketBuffer.write_u16 h.id
  BytePacketBuffer.write h.firstFlags
  BytePacketBuffer.write h.secondFlags
  BytePacketBuffer.write_u16 h.questions
  BytePacketBuffer.write_u16 h.answers
  BytePacketBuffer.write_u16 h.authoritative_entries
  BytePacketBuffer.write_u16 h.resource_entries

/-- `DnsQuestions` of `dns_questions.rs`. -/
structure DnsQuestions where
  name : StrB
  qtype : RecordType
deriving DecidableEq, Repr

/-- The class read of `DnsQuestions::read` is `let _ = buffer.read_u16();`
with no `?`: a returned error is discarded (and `read_u16` pre-checks
bounds, so it mutates nothing when it fails).  A panic would still unwind,
but `read_u16` cannot panic. -/
def swallowClassRead : RunM Unit := fun b =>
  match BytePacketBuffer.read_u16 b with
  | .ok _ b2 => .ok () b2
  | .err (.err _) b2 => .ok () b2
  | .err (.crash m) b2 => .err (.crash m) b2

/-- `DnsQuestions::read`: qname, type code, then the discarded class
field. -/
def DnsQuestions.read : RunM DnsQuestions := do
  let name ← BytePacketBuffer.read_qname
  let t ← BytePacketBuffer.read_u16
  swallowClassRead
  pure ⟨name, RecordType.from_num t⟩

/-- `DnsQuestions::write`: qname, type code, class 1. -/
def DnsQuestions.write (q : DnsQuestions) : RunM Unit := do
  BytePacketBuffer.write_qname q.name
  BytePacketBuffer.write_u16 q.qtype.to_num
  BytePacketBuffer.write_u16 1

/-- `std::net::Ipv4Addr`, four octets. -/
structure Ipv4Addr where
  o0 : Nat
  o1 : Nat
  o2 : Nat
  o3 : Nat
deriving DecidableEq, Repr

/-- `Ipv4Addr::octets`. -/
def Ipv4Addr.octets (a : Ipv4Addr) : List Nat := [a.o0, a.o1, a.o2, a.o3]

/-- `std::net::Ipv6Addr`, eight 16-bit segments. -/
structure Ipv6Addr where
  s0 : Nat
  s1 : Nat
  s2 : Nat
  s3 : Nat
  s4 : Nat
  s5 : Nat
  s6 : Nat
  s7 : Nat
deriving DecidableEq, Repr

/-- `Ipv6Addr::segments`. -/
def Ipv6Addr.segments (a : Ipv6Addr) : List Nat :=
  [a.s0, a.s1, a.s2, a.s3, a.s4, a.s5, a.s6, a.s7]

/-- `DnsRecord` of `dns_record.rs`. -/
inductive DnsRecord where
  | UNKNOWN (domain : StrB) (qtype : Nat) (data_len : Nat) (ttl : Nat) : DnsRecord
  | A (domain : StrB) (addr : Ipv4Addr) (ttl : Nat) : DnsRecord
  | NS (domain : StrB) (host : StrB) (ttl : Nat) : DnsRecord
  | CNAME (domain : StrB) (host : StrB) (ttl : Nat) : DnsRecord
  | MX (domain : StrB) (host : StrB) (priority : Nat) (ttl : Nat) : DnsRecord
  | AAAA (domain : StrB) (addr : Ipv6Addr) (ttl : Nat) : DnsRecord
deriving DecidableEq, Repr

/-- `DnsRecord::read`: common preamble (domain, type, discarded class, ttl,
data length) then the type-directed payload. -/
def DnsRecord.read : RunM DnsRecord := do
  let domain ← BytePacketBuffer.read_qname
  let qtype_num ← BytePacketBuffer.read_u16
  let qtype := RecordType.from_num qtype_num
  let _ ← BytePacketBuffer.read_u16
  let ttl ← BytePacketBuffer.read_u32
  let data_len ← BytePacketBuffer.read_u16
  match qtype with
  | .A => do
    let raw_addr ← BytePacketBuffer.read_u32
    pure (.A domain
      ⟨(raw_addr >>> 24) &&& 0xFF, (raw_addr >>> 16) &&& 0xFF,
       (raw_addr >>> 8) &&& 0xFF, (raw_addr >>> 0) &&& 0xFF⟩ ttl)
  | .UNKNOWN _ => do
    BytePacketBuffer.steps data_len
    pure (.UNKNOWN domain qtype_num data_len ttl)
  | .NS => do
    let host ← BytePacketBuffer.read_qname
    pure (.NS domain host ttl)
  | .CNAME => do
    let cname ← BytePacketBuffer.read_qname
    pure (.CNAME domain cname ttl)
  | .MX => do
    let priority ← BytePacketBuffer.read_u16
    let host ← BytePacketBuffer.read_qname
    pure (.MX domain host priority ttl)
  | .AAAA => do
    let b0 ← BytePacketBuffer.read_u16
    let b1 ← BytePacketBuffer.read_u16
    let b2 ← BytePacketBuffer.read_u16
    let b3 ← BytePacketBuffer.read_u16
    let b4 ← BytePacketBuffer.read_u16
    let b5 ← BytePacketBuffer.read_u16
    let b6 ← BytePacketBuffer.read_u16
    let b7 ← BytePacketBuffer.read_u16
    pure (.AAAA domain ⟨b0, b1, b2, b3, b4, b5, b6, b7⟩ ttl)

/-- Segment writer used by the AAAA arm of `DnsRecord::write`. -/
def writeSegments : List Nat → RunM Unit
  | [] => pure ()
  | s :: rest => do
    BytePacketBuffer.write_u16 s
    writeSegments rest

/-- `DnsRecord::write`: emits the record and returns the number of bytes
written (`end - start_pos`).  For NS, CNAME and MX a zero length
placeholder is written, the payload follows, and the patch is applied with
`set_u16` at `start_position - 1` (CNAME, MX) or `start_pos - 1` (NS),
exactly as in the source; the UNKNOWN arm only prints and writes
nothing. -/
def DnsRecord.write (r : DnsRecord) : RunM Nat := do
  let start_pos ← BytePacketBuffer.posM
  match r with
  | .A domain addr ttl => do
    BytePacketBuffer.write_qname domain
    BytePacketBuffer.write_u16 RecordType.A.to_num
    BytePacketBuffer.write_u16 1
    BytePacketBuffer.write_u32 ttl
    BytePacketBuffer.write_u16 4
    BytePacketBuffer.write_bytes addr.octets
  | .UNKNOWN _ _ _ _ =>
    pure ()
  | .AAAA domain addr ttl => do
    BytePacketBuffer.write_qname domain
    BytePacketBuffer.write_u16 RecordType.AAAA.to_num
    BytePacketBuffer.write_u16 1
    BytePacketBuffer.write_u32 ttl
    BytePacketBuffer.write_u16 16
    writeSegments addr.segments
  | .CNAME domain host ttl => do
    BytePacketBuffer.write_qname domain
    BytePacketBuffer.write_u16 RecordType.CNAME.to_num
    BytePacketBuffer.write_u16 1
    BytePacketBuffer.write_u32 ttl
    BytePacketBuffer.write_u16 0
    let start_position ← BytePacketBuffer.posM
    BytePacketBuffer.write_qname host
    let endp ← BytePacketBuffer.posM
    let size ← usizeSub endp start_position
    let patch_pos ← usizeSub start_position 1
    BytePacketBuffer.set_u16 patch_pos (size % 65536)
  | .NS domain host ttl => do
    BytePacketBuffer.write_qname domain
    BytePacketBuffer.write_u16 RecordType.NS.to_num
    BytePacketBuffer.write_u16 1
    BytePacketBuffer.write_u32 ttl
    BytePacketBuffer.write_u16 0
    let start_position ← BytePacketBuffer.posM
    BytePacketBuffer.write_qname host
    let endp ← BytePacketBuffer.posM
    let size ← usizeSub endp start_position
    let patch_pos ← usizeSub start_pos 1
    BytePacketBuffer.set_u16 patch_pos (size % 65536)
  | .MX domain host priority ttl => do
    BytePacketBuffer.write_qname domain
    BytePacketBuffer.write_u16 RecordType.MX.to_num
    BytePacketBuffer.write_u16 1
    BytePacketBuffer.write_u32 ttl
    BytePacketBuffer.write_u16 0
    let start_position ← BytePacketBuffer.posM
    BytePacketBuffer.write_u16 priority
    BytePacketBuffer.write_qname host
    let endp ← BytePacketBuffer.posM
    let size ← usizeSub endp start_position
    let patch_pos ← usizeSub start_position 1
    BytePacketBuffer.set_u16 patch_pos (size % 65536)
  let endPos ← BytePacketBuffer.posM
  usizeSub endPos start_pos

/-- `DnsPacket` of `dns_packet.rs`. -/
structure DnsPacket where
  header : DnsHeader
  questions : List DnsQuestions
  answers : List DnsRecord
  authorities : List DnsRecord
  resources : List DnsRecord
deriving DecidableEq, Repr

/-- `DnsPacket::new`. -/
def DnsPacket.new : DnsPacket := ⟨DnsHeader.new, [], [], [], []⟩

/-- The `for _ in 0..count` read loops of `DnsPacket::from_buffer`. -/
def readN (m : RunM α) : Nat → RunM (List α)
  | 0 => pure []
  | n + 1 => do
    let x ← m
    let xs ← readN m n
    pure (x :: xs)

/-- `DnsPacket::from_buffer`: header, then exactly the counted questions,
answers, authorities and resources, in that order; every read propagates
its error. -/
def DnsPacket.from_buffer : RunM DnsPacket := do
  let header ← DnsHeader.read
  let questions ← readN DnsQuestions.read header.questions
  let answers ← readN DnsRecord.read header.answers
  let authorities ← readN DnsRecord.read header.authoritative_entries
  let resources ← readN DnsRecord.read header.resource_entries
  pure ⟨header, questions, answers, authorities, resources⟩

/-- The question write loop of `DnsPacket::write`. -/
def writeQuestions : List DnsQuestions → RunM Unit
  | [] => pure ()
  | q :: rest => do
    q.write
    writeQuestions rest

/-- The record write loops of `DnsPacket::write` (the size returned by
`DnsRecord::write` is discarded, its error propagated). -/
def writeRecords : List DnsRecord → RunM Unit
  | [] => pure ()
  | r :: rest => do
    let _ ← r.write
    writeRecords rest

/-- The count fix-up `DnsPacket::write` performs on `self` before writing:
the four header counts are set from the list lengths (the `as u16` cast
written out). -/
def DnsPacket.withCounts (p : DnsPacket) : DnsPacket :=
  { p with header :=
    { p.header with
      questions := p.questions.length % 65536
      answers := p.answers.length % 65536
      authoritative_entries := p.authorities.length % 65536
      resource_entries := p.resources.length % 65536 } }

/-- `DnsPacket::write`: fix up the counts, then emit header, questions,
answers, authorities and resources in order.  The model returns the
mutated packet. -/
def DnsPacket.write (p : DnsPacket) : RunM DnsPacket := fun b =>
  match DnsHeader.write p.withCounts.header b with
  | .err e b2 => .err e b2
  | .ok _ b2 =>
    match writeQuestions p.withCounts.questions b2 with
    | .err e b3 => .err e b3
    | .ok _ b3 =>
      match writeRecords p.withCounts.answers b3 with
      | .err e b4 => .err e b4
      | .ok _ b4 =>
        match writeRecords p.withCounts.authorities b4 with
        | .err e b5 => .err e b5
        | .ok _ b5 =>
          match writeRecords p.withCounts.resources b5 with
          | .err e b6 => .err e b6
          | .ok _ b6 => .ok p.withCounts b6

/-- `DnsPacket::get_random_a`: first A record of the answer section. -/
def DnsPacket.get_random_a (p : DnsPacket) : Option Ipv4Addr :=
  (p.answers.filterMap fun r =>
    match r with
    | .A _ addr _ => some addr
    | _ => none).head?

/-- `DnsPacket::get_ns`: (domain, host) of the NS records of the authority
section whose domain is a suffix of the queried name (`ends_with`). -/
def DnsPacket.get_ns (p : DnsPacket) (qname : StrB) : List (StrB × StrB) :=
  (p.authorities.filterMap fun r =>
    match r with
    | .NS domain host _ => some (domain, host)
    | _ => none).filter fun dh => dh.1.isSuffixOf qname

/-- `DnsPacket::get_resolved_ns`: first glue address — an A record of the
additional section whose domain equals the host of a matching NS. -/
def DnsPacket.get_resolved_ns (p : DnsPacket) (qname : StrB) : Option Ipv4Addr :=
  ((p.get_ns qname).flatMap fun dh =>
    p.resources.filterMap fun r =>
      match r with
      | .A domain addr _ => if domain == dh.2 then some addr else none
      | _ => none).head?

/-- `DnsPacket::get_unresolved_ns`: host name of the first matching NS. -/
def DnsPacket.get_unresolved_ns (p : DnsPacket) (qname : StrB) : Option StrB :=
  ((p.get_ns qname).map fun dh => dh.2).head?

/-- The well-known root server 198.41.0.4 of `recursive_lookup`. -/
def rootServer : Ipv4Addr := ⟨198, 41, 0, 4⟩

/-- The network boundary of the Resolver Engine: `lookup(qname, qtype,
(server, 53))` — encode, UDP round trip and decode of one upstream
query — abstracted as an oracle from name, type and server to the decoded
response or the failure. -/
abbrev LookupFn := StrB → RecordType → Ipv4Addr → Except RErr DnsPacket

/-- The loop of `recursive_lookup` over the current name-server state,
with the recursion of the nested `recursive_lookup(new_ns_name, A)` call
starting again from the root server.  `fuel` is a model artifact: the
source loop and recursion are unbounded (spec section 4.4). -/
def recursive_lookupF (lk : LookupFn) : Nat → StrB → RecordType → Ipv4Addr → Except RErr DnsPacket
  | 0, _, _, _ => .error (.err "model fuel exhausted")
  | fuel + 1, qname, qtype, ns =>
    match lk qname qtype ns with
    | .error e => .error e
    | .ok response =>
      if response.answers ≠ [] ∧ response.header.rescode = ResultCode.NOERROR then
        .ok response
      else if response.header.rescode = ResultCode.NXDOMAIN then
        .ok response
      else
        match response.get_resolved_ns qname with
        | some new_ns => recursive_lookupF lk fuel qname qtype new_ns
        | none =>
          match response.get_unresolved_ns qname with
          | none => .ok response
          | some new_ns_name =>
            match recursive_lookupF lk fuel new_ns_name .A rootServer with
            | .error e => .error e
            | .ok recursive_response =>
              match recursive_response.get_random_a with
              | some new_ns => recursive_lookupF lk fuel qname qtype new_ns
              | none => .ok response

/-- `recursive_lookup(qname, qtype)`: the loop started at the root
server. -/
def recursive_lookup (lk : LookupFn) (fuel : Nat) (qname : StrB) (qtype : RecordType) :
    Except RErr DnsPacket :=
  recursive_lookupF lk fuel qname qtype rootServer

/-- `Vec::pop`: removes and returns the last element. -/
def vecPop : List α → Option (α × List α)
  | [] => none
  | x :: xs =>
    match vecPop xs with
    | none => some (x, [])
    | some (l, rest) => some (l, x :: rest)

/-- The Resolver Engine seen from `handle_query`: `recursive_lookup` as a
function of the popped question. -/
abbrev ResolveFn := StrB → RecordType → Except RErr DnsPacket

/-- `handle_query`: decode the request (its error propagating out), build
the response skeleton with the request id and the response/recursion
flags, pop a question (`Vec::pop` takes the LAST one), resolve it (copying
rescode, question and record sections on success, SERVFAIL on failure),
FORMERR when no question is present, and encode the response. -/
def handle_query (resolve : ResolveFn) (req_buffer : BytePacketBuffer) :
    Except RErr (DnsPacket × BytePacketBuffer) :=
  match DnsPacket.from_buffer req_buffer with
  | .err e _ => .error e
  | .ok request _ =>
    let res0 : DnsPacket :=
      { DnsPacket.new with header :=
        { DnsPacket.new.header with
          id := request.header.id
          recursion_desired := true
          recursion_available := true
          response := true } }
    let step : Except RErr DnsPacket :=
      match vecPop request.questions with
      | some (question, _) =>
        match resolve question.name question.qtype with
        | .ok result =>
          .ok { res0 with
            header := { res0.header with rescode := result.header.rescode }
            questions := [question]
            answers := result.answers
            authorities := result.authorities
            resources := result.resources }
        | .error (.err _) =>
          .ok { res0 with header := { res0.header with rescode := ResultCode.SERVFAIL } }
        | .error (.crash m) => .error (.crash m)
      | none =>
        .ok { res0 with header := { res0.header with rescode := ResultCode.FORMERR } }
    match step with
    | .error e => .error e
    | .ok res_packet =>
      match DnsPacket.write res_packet BytePacketBuffer.new with
      | .ok p b => .ok (p, b)
      | .err e _ => .error e

/-- The service loop of `main`: one datagram at a time; an error from
`handle_query` makes the loop `bail!` and the process stop, so no later
datagram is served. -/
def serveAll (resolve : ResolveFn) : List BytePacketBuffer →
    Except RErr (List (DnsPacket × BytePacketBuffer))
  | [] => .ok []
  | b :: rest =>
    match handle_query resolve b with
    | .error e => .error e
    | .ok out =>
      match serveAll resolve rest with
      | .error e => .error e
      | .ok outs => .ok (out :: outs)

/-- Pad a byte listing to the 512 bytes of a datagram buffer. -/
def padTo512 (l : List Nat) : List Nat := l ++ List.replicate (512 - l.length) 0

/-- Encode a record into a fresh buffer, then decode from position 0 of
the resulting bytes. -/
def encodeThenDecode (r : DnsRecord) : RRes DnsRecord :=
  match DnsRecord.write r BytePacketBuffer.new with
  | .ok _ b => DnsRecord.read ⟨b.buf, 0⟩
  | .err e b => .err e b

/-- Bytes of the buffer carried by a write result. -/
def resBuf : RRes α → Option (List Nat)
  | .ok _ b => some b.buf
  | .err _ _ => none

/-- The CNAME record `domain "a", host "foo.bar", ttl 0` (all ASCII). -/
def cnameFooBar : DnsRecord := .CNAME [97] [102, 111, 111, 46, 98, 97, 114] 0

/-- What the decoder recovers from the encoding of `cnameFooBar`: the length
patch applied at `start_position - 1` zeroed the data-length field and
overwrote the first payload byte (the label length 3) with the payload
size 9, so the host comes back as the bytes `foo\x03bar\x00\x00`. -/
def cnameFooBarCorrupt : DnsRecord :=
  .CNAME [97] [102, 111, 111, 3, 98, 97, 114, 0, 0] 0

/-- Question name `www.x` of the C2 scenario. -/
def qnameWWWX : StrB := [119, 119, 119, 46, 120]

/-- Name-server host `ns.x` of the C2 scenario. -/
def hostNSX : StrB := [110, 115, 46, 120]

/-- A referral without glue: no answers, NOERROR, one NS record for the
suffix `x` pointing at `ns.x`, empty additional section. -/
def referralC2 : DnsPacket :=
  { DnsPacket.new with authorities := [.NS [120] hostNSX 300] }

/-- Upstream oracle of the C2 counterexample: the query for `www.x`
returns the glueless referral; every other query (in particular the
nested lookup of `ns.x`) fails with the error `boom`. -/
def lkC2 : LookupFn := fun q _ _ =>
  if q = qnameWWWX then .ok referralC2 else .error (.err "boom")

/-- Question name `q` of the C2 witness scenario. -/
def qnameQW : StrB := [113]

/-- Referral of the C2 witness: NS for the suffix `q` pointing at host
`h`, no glue. -/
def referralW : DnsPacket :=
  { DnsPacket.new with authorities := [.NS [113] [104] 300] }

/-- An answer packet with no A record (a CNAME only), used as a nested
lookup result that yields no address. -/
def noArecordPkt : DnsPacket :=
  { DnsPacket.new with answers := [.CNAME [104] [99] 60] }

/-- Upstream oracle of the C2 witness: `q` gets the glueless referral,
the nested `h` lookup succeeds but carries no A record. -/
def lkW : LookupFn := fun q _ _ =>
  if q = qnameQW then .ok referralW
  else .ok noArecordPkt

/-- A request datagram whose single question name is a compression
pointer to itself (offset 12), so its decode fails with the jump
limit error. -/
def cycleBuf : BytePacketBuffer :=
  ⟨padTo512 [0, 0, 0, 0, 0, 1, 0, 0, 0, 0, 0, 0, 0xC0, 12], 0⟩

/-- The all-zero datagram: decodes to a packet with id 0 and no
questions. -/
def zeroBuf : BytePacketBuffer := ⟨List.replicate 512 0, 0⟩

/-- A resolver oracle that always fails; serving a request through it must
not differ from any other oracle on the paths that issue no upstream
query. -/
def neverResolve : ResolveFn := fun _ _ => .error (.err "no upstream")

/-- The FORMERR response skeleton `handle_query` builds for a request of
the given id with no questions. -/
def mkFormerrPacket (idv : Nat) : DnsPacket :=
  { DnsPacket.new with header :=
    { DnsPacket.new.header with
      id := idv
      recursion_desired := true
      recursion_available := true
      response := true
      rescode := ResultCode.FORMERR } }

/-- A request datagram with two questions, `aa` then `bb`, both of type
A, id 7. -/
def twoQBuf : BytePacketBuffer :=
  ⟨padTo512 [0, 7, 0, 0, 0, 2, 0, 0, 0, 0, 0, 0,
             2, 97, 97, 0, 0, 1, 0, 1,
             2, 98, 98, 0, 0, 1, 0, 1], 0⟩

/-- The first question of `twoQBuf`. -/
def questionAA : DnsQuestions := ⟨[97, 97], .A⟩

/-- The second (last) question of `twoQBuf`. -/
def questionBB : DnsQuestions := ⟨[98, 98], .A⟩

/-- Resolver oracle of the C5 counterexample, distinguishing the two
question names by the address it returns. -/
def resolveC5 : ResolveFn := fun q _ =>
  if q = [98, 98] then .ok { DnsPacket.new with answers := [.A [98, 98] ⟨9, 9, 9, 9⟩ 60] }
  else .ok { DnsPacket.new with answers := [.A [97, 97] ⟨1, 1, 1, 1⟩ 60] }

/-- Questions of the packet sent by `handle_query`, when one was sent. -/
def sentQuestions : Except RErr (DnsPacket × BytePacketBuffer) → Option (List DnsQuestions)
  | .ok (p, _) => some p.questions
  | .error _ => none

/-- Rescode of the packet sent by `handle_query`, when one was sent. -/
def sentRescode : Except RErr (DnsPacket × BytePacketBuffer) → Option ResultCode
  | .ok (p, _) => some p.header.rescode
  | .error _ => none

/-- Id of the packet sent by `handle_query`, when one was sent. -/
def sentId : Except RErr (DnsPacket × BytePacketBuffer) → Option Nat
  | .ok (p, _) => some p.header.id
  | .error _ => none

/-- A 63-byte label of `a`s, with its length byte. -/
def wire63 : List Nat := 63 :: List.replicate 63 97

/-- The C6 request datagram: one question whose name fills the buffer so
that the name and the type code decode successfully and the cursor lands
on 511, where the two-byte class read fails.  Layout: 12-byte header
(qdcount 1), seven 63-byte labels, one 47-byte label, the zero
terminator at 508, type A at 509-510, and nothing left for the class. -/
def c6buf : BytePacketBuffer :=
  ⟨[0, 0, 0, 0, 0, 1, 0, 0, 0, 0, 0, 0] ++
    wire63 ++ wire63 ++ wire63 ++ wire63 ++ wire63 ++ wire63 ++ wire63 ++
    (47 :: List.replicate 47 97) ++ [0, 0, 1, 0], 0⟩

/-- A 63-byte label of `a`s followed by a dot, as decoded name text. -/
def name63dot : StrB := List.replicate 63 97 ++ [46]

/-- The decoded question name of `c6buf`. -/
def c6name : StrB :=
  name63dot ++ name63dot ++ name63dot ++ name63dot ++ name63dot ++ name63dot ++
    name63dot ++ List.replicate 47 97

/-- The packet `DnsPacket::from_buffer` returns for `c6buf`, although the
class field of its only question was never read. -/
def c6packet : DnsPacket :=
  { DnsPacket.new with
    header := { DnsHeader.new with questions := 1 }
    questions := [⟨c6name, .A⟩] }

/-- Answer records of the C7 scenario: three A records and one UNKNOWN
record (type code 99) among them. -/
def c7packet : DnsPacket :=
  { DnsPacket.new with answers :=
    [.A [97] ⟨1, 2, 3, 4⟩ 60,
     .UNKNOWN [120] 99 0 0,
     .A [98] ⟨5, 6, 7, 8⟩ 60,
     .A [99] ⟨9, 10, 11, 12⟩ 60] }

/-- The same packet without the UNKNOWN record. -/
def c7known : DnsPacket :=
  { DnsPacket.new with answers :=
    [.A [97] ⟨1, 2, 3, 4⟩ 60,
     .A [98] ⟨5, 6, 7, 8⟩ 60,
     .A [99] ⟨9, 10, 11, 12⟩ 60] }

/-- A buffer holding a one-label name `a` at offset 12, a chain of five
pointers 32 ← 34 ← 36 ← 38 ← 40 ending at that name, and a sixth pointer
at 50 to the head of that chain. -/
def chainBuf : List Nat :=
  List.replicate 12 0 ++ [1, 97, 0] ++ List.replicate 17 0 ++
    [192, 12, 192, 32, 192, 34, 192, 36, 192, 38] ++ List.replicate 8 0 ++
    [192, 40] ++ List.replicate 460 0

/-- A buffer whose name at position 0 has a one-byte label `0xFF`, which
is not valid UTF-8. -/
def badUtf8Buf : BytePacketBuffer := ⟨padTo512 [1, 0xFF, 0], 0⟩

/-- A request datagram (qdcount 1) whose question name has the invalid
UTF-8 label `0xFF`. -/
def badUtf8Req : BytePacketBuffer :=
  ⟨padTo512 [0, 0, 0, 0, 0, 1, 0, 0, 0, 0, 0, 0, 1, 0xFF, 0], 0⟩

/-- The encoded form of `mkFormerrPacket idv`: the 12 header bytes (flag
bytes 129, 129 = response + recursion-desired, recursion-available +
FORMERR) and a cursor at 12. -/
def formerrBuf (idv : Nat) : BytePacketBuffer :=
  ⟨[(idv >>> 8) % 256, idv &&& 0xFF, 129, 129, 0, 0, 0, 0, 0, 0, 0, 0] ++
    List.replicate 500 0, 12⟩

/-- The header of the flag example in the spec: a response with opcode 0,
recursion desired, nothing else set. -/
def exampleHeader : DnsHeader :=
  { DnsHeader.new with response := true, recursion_desired := true }

/-- The reply `handle_query` produces for a decoded request with no
questions: the FORMERR skeleton of the request id together with its
encoding (the encode of a bare header always succeeds). -/
def formerrReply (idv : Nat) : DnsPacket × BytePacketBuffer :=
  match DnsPacket.write (mkFormerrPacket idv) BytePacketBuffer.new with
  | .ok p b => (p, b)
  | .err _ b => (mkFormerrPacket idv, b)

/-- C1: the round-trip fails for the variable-length variants.  Encoding
the CNAME record `("a", "foo.bar", 0)` and decoding the produced bytes
yields a different record: the retroactive patch was applied one byte too
late (`start_position - 1` instead of `start_position - 2`), so the wire
data-length field (bytes 11-12) still holds 0 and the first payload byte
(byte 13, the label length 3) was overwritten with the payload size 9. -/
theorem cname_roundtrip_corrupted :
    resVal (encodeThenDecode cnameFooBar) = some cnameFooBarCorrupt ∧
    cnameFooBarCorrupt ≠ cnameFooBar ∧
    (resBuf (DnsRecord.write cnameFooBar BytePacketBuffer.new)).map
      (fun l => [l.getD 11 0, l.getD 12 0, l.getD 13 0]) = some [0, 0, 9] := by
  refine ⟨by decide, by decide, by decide⟩

/-- C2 counterexample: on a glueless referral for `www.x` whose name
server `ns.x` fails to resolve (the upstream lookup returns the error
`boom`), `recursive_lookup` returns that error instead of the original
referral response. -/
theorem nested_lookup_error_propagates_cex :
    recursive_lookup lkC2 8 qnameWWWX .A = .error (.err "boom") ∧
    recursive_lookup lkC2 8 qnameWWWX .A ≠ .ok referralC2 := by
  refine ⟨by decide, by decide⟩

/-- C3 counterexample: a request datagram whose decode fails (its question
name is a pointer cycle) makes `handle_query` return the decode error —
no response packet, FORMERR or otherwise, is built or sent, and `main`
then bails out of its serve loop. -/
theorem decode_failure_yields_no_response_cex :
    handle_query neverResolve cycleBuf =
      .error (.err BytePacketBuffer.jumpLimitMsg) ∧
    sentRescode (handle_query neverResolve cycleBuf) = none ∧
    serveAll neverResolve [cycleBuf, zeroBuf] =
      .error (.err BytePacketBuffer.jumpLimitMsg) := by
  refine ⟨by decide, by decide, by decide⟩

/-- C4 counterexample: `steps` and `seek` perform no bounds check, so they
move the cursor past the 512-byte capacity and still return `Ok`. -/
theorem steps_seek_unchecked_cex :
    BytePacketBuffer.steps 600 BytePacketBuffer.new =
      .ok () ⟨List.replicate 512 0, 600⟩ ∧
    BytePacketBuffer.seek 16383 BytePacketBuffer.new =
      .ok () ⟨List.replicate 512 0, 16383⟩ ∧
    512 < 600 ∧ 512 < 16383 := by
  refine ⟨by decide, by decide, by decide, by decide⟩

/-- C5 counterexample: for a request carrying the questions `aa` then
`bb`, the response built by `handle_query` contains the LAST question
`bb` (`Vec::pop` removes the last element), not the first. -/
theorem answered_question_not_first_cex :
    (resVal (DnsPacket.from_buffer twoQBuf)).map (fun p => p.questions) =
      some [questionAA, questionBB] ∧
    sentQuestions (handle_query resolveC5 twoQBuf) = some [questionBB] ∧
    questionBB ≠ questionAA := by
  refine ⟨by decide, by decide, by decide⟩

/-- C6: the short read of the class field of a question is NOT fatal.  On
`c6buf` the cursor reaches 511 after the question name and type, the
two-byte class read fails (`read_u16` at 511 errors), but
`DnsQuestions::read` discards that error (`let _ = read_u16();` without
`?`) and `DnsPacket::from_buffer` returns a fully `Ok` packet. -/
theorem class_short_read_swallowed :
    DnsPacket.from_buffer c6buf = .ok c6packet ⟨c6buf.buf, 511⟩ ∧
    resVal (BytePacketBuffer.read_u16 ⟨c6buf.buf, 511⟩) = none := by
  refine ⟨by decide, by decide⟩

/-- C7 counterexample: encoding a packet whose four answers include one
UNKNOWN record writes ancount 4 (the list length), not the serialized
record count 3; the remaining bytes are exactly those of the packet
without the UNKNOWN record. -/
theorem unknown_ancount_cex :
    (resBuf (DnsPacket.write c7packet BytePacketBuffer.new)).map
      (fun l => l.getD 7 0) = some 4 ∧
    (4 : Nat) ≠ 3 ∧
    (resBuf (DnsPacket.write c7packet BytePacketBuffer.new)).map
      (fun l => l.set 7 3) =
      resBuf (DnsPacket.write c7known BytePacketBuffer.new) := by
  refine ⟨by decide, by decide, by decide⟩

/-- C7 amended: one UNKNOWN among three known records is skipped by the
encoder — the output bytes equal those of the three-record packet except
for the answer count — but the ancount written is 4, the full answers
list length including the UNKNOWN record. -/
theorem unknown_skipped_ancount_full_length :
    resVal (DnsPacket.write c7packet BytePacketBuffer.new) =
      some c7packet.withCounts ∧
    c7packet.withCounts.header.answers = 4 ∧
    (resBuf (DnsPacket.write c7packet BytePacketBuffer.new)).map
      (fun l => [l.getD 6 0, l.getD 7 0]) = some [0, 4] ∧
    (resBuf (DnsPacket.write c7packet BytePacketBuffer.new)).map
      (fun l => l.set 7 3) =
      resBuf (DnsPacket.write c7known BytePacketBuffer.new) ∧
    resPos (DnsPacket.write c7packet BytePacketBuffer.new) =
      resPos (DnsPacket.write c7known BytePacketBuffer.new) := by
  refine ⟨by decide, by decide, by decide, by decide, by decide⟩

/-- C8: the jump limit is 5 per name.  A chain of exactly five pointers
decodes successfully (to the name `a`, the shared cursor frozen two bytes
past the first pointer), a chain of six fails with the jump-limit error,
and universally, any decode state that has performed a sixth jump fails
immediately at the loop head whatever the buffer contents. -/
theorem jump_limit_five :
    BytePacketBuffer.read_qname ⟨chainBuf, 40⟩ = .ok [97] ⟨chainBuf, 42⟩ ∧
    BytePacketBuffer.read_qname ⟨chainBuf, 50⟩ =
      .err (.err BytePacketBuffer.jumpLimitMsg) ⟨chainBuf, 52⟩ ∧
    ∀ (fuel sp : Nat) (jumped dl : Bool) (out : StrB) (b : BytePacketBuffer),
      BytePacketBuffer.read_qnameGo (fuel + 1) sp jumped 6 dl out b =
        .err (.err BytePacketBuffer.jumpLimitMsg) b := by
  refine ⟨by decide, by decide, fun fuel sp jumped dl out b => ?_⟩
  simp [BytePacketBuffer.read_qnameGo, BytePacketBuffer.max_jumps, throwErr]

/-- C10: `read_qname` panics (models the `expect` on `str::from_utf8`)
when the bytes of a label are not valid UTF-8, rather than returning a decode
error; a whole request datagram with such a label crashes `handle_query`
through the same panic instead of reaching the error channel. -/
theorem read_qname_panics_on_invalid_utf8 :
    BytePacketBuffer.read_qname badUtf8Buf =
      .err (.crash "bytes are not valid UTF-8") badUtf8Buf ∧
    utf8Valid [0xFF] = false ∧
    handle_query neverResolve badUtf8Req =
      .error (.crash "bytes are not valid UTF-8") := by
  refine ⟨by decide, by decide, by decide⟩

/-- Unfolding of `read` on a destructured buffer. -/
theorem read_eval (buf : List Nat) (pos : Nat) :
    BytePacketBuffer.read ⟨buf, pos⟩ =
      if 512 ≤ pos then .err (.err "End of buffer") ⟨buf, pos⟩
      else .ok (buf.getD pos 0) ⟨buf, pos + 1⟩ := rfl

/-- Unfolding of `write` on a destructured buffer. -/
theorem write_eval (v : Nat) (buf : List Nat) (pos : Nat) :
    BytePacketBuffer.write v ⟨buf, pos⟩ =
      if 512 ≤ pos then .err (.err "End of buffer") ⟨buf, pos⟩
      else .ok () ⟨buf.set pos v, pos + 1⟩ := rfl

/-- C4 amended: the bounds-checked primitives keep the cursor inside
`[0, 512]` — on success and on failure alike — and fail rather than read
or write at or past capacity; `steps` and `seek` (see the counterexample)
are the unchecked exceptions. -/
theorem checked_ops_cursor_bound (b : BytePacketBuffer) (v : Nat) (hb : b.pos ≤ 512) :
    resPos (BytePacketBuffer.read b) ≤ 512 ∧
    resPos (BytePacketBuffer.read_u16 b) ≤ 512 ∧
    resPos (BytePacketBuffer.read_u32 b) ≤ 512 ∧
    resPos (BytePacketBuffer.write v b) ≤ 512 ∧
    resPos (BytePacketBuffer.write_u16 v b) ≤ 512 ∧
    resPos (BytePacketBuffer.write_u32 v b) ≤ 512 ∧
    (512 ≤ b.pos → resVal (BytePacketBuffer.read b) = none ∧
      resVal (BytePacketBuffer.write v b) = none) ∧
    (∀ p, 512 ≤ p → resVal (BytePacketBuffer.get p b) = none) ∧
    (∀ s l, 512 ≤ s + l → resVal (BytePacketBuffer.get_range s l b) = none) := by
  obtain ⟨buf, pos⟩ := b
  simp only [BytePacketBuffer.pos] at hb ⊢
  refine ⟨?_, ?_, ?_, ?_, ?_, ?_, ?_, ?_, ?_⟩
  · rw [read_eval]; split <;> simp only [resPos] <;> omega
  · by_cases h1 : 511 ≤ pos
    · simp only [BytePacketBuffer.read_u16, h1, if_true, resPos]; omega
    · simp only [BytePacketBuffer.read_u16, BytePacketBuffer.pos, h1, if_false, read_eval,
        show ¬ 512 ≤ pos by omega, show ¬ 512 ≤ pos + 1 by omega, resPos]
      omega
  · by_cases h1 : 509 ≤ pos
    · simp only [BytePacketBuffer.read_u32, h1, if_true, resPos]; omega
    · simp only [BytePacketBuffer.read_u32, BytePacketBuffer.read_u16, BytePacketBuffer.pos,
        h1, if_false, read_eval, show ¬ 511 ≤ pos by omega, show ¬ 512 ≤ pos by omega,
        show ¬ 512 ≤ pos + 1 by omega, show ¬ 511 ≤ pos + 1 + 1 by omega,
        show ¬ 512 ≤ pos + 1 + 1 by omega, show ¬ 512 ≤ pos + 1 + 1 + 1 by omega, resPos]
      omega
  · rw [write_eval]; split <;> simp only [resPos] <;> omega
  · by_cases h1 : 512 ≤ pos
    · simp only [BytePacketBuffer.write_u16, write_eval, h1, if_true, resPos]; omega
    · by_cases h2 : 512 ≤ pos + 1
      · simp only [BytePacketBuffer.write_u16, write_eval, h1, h2, if_true, if_false, resPos]
        omega
      · simp only [BytePacketBuffer.write_u16, write_eval, h1, h2, if_false, resPos]; omega
  · by_cases h1 : 512 ≤ pos
    · simp only [BytePacketBuffer.write_u32, write_eval, h1, if_true, resPos]; omega
    · by_cases h2 : 512 ≤ pos + 1
      · simp only [BytePacketBuffer.write_u32, write_eval, h1, h2, if_true, if_false, resPos]
        omega
      · by_cases h3 : 512 ≤ pos + 1 + 1
        · simp only [BytePacketBuffer.write_u32, write_eval, h1, h2, h3, if_true, if_false,
            resPos]
          omega
        · by_cases h4 : 512 ≤ pos + 1 + 1 + 1
          · simp only [BytePacketBuffer.write_u32, write_eval, h1, h2, h3, h4, if_true,
              if_false, resPos]
            omega
          · simp only [BytePacketBuffer.write_u32, write_eval, h1, h2, h3, h4, if_false,
              resPos]
            omega
  · intro hge
    constructor
    · rw [read_eval]; simp only [hge, if_true, resVal]
    · rw [write_eval]; simp only [hge, if_true, resVal]
  · intro p hp
    simp only [BytePacketBuffer.get, hp, if_true, resVal]
  · intro s l hsl
    simp only [BytePacketBuffer.get_range, hsl, if_true, resVal]

/-- C4 witness: the bound holds concretely on a fresh buffer. -/
theorem checked_ops_cursor_bound_witness :
    resPos (BytePacketBuffer.read BytePacketBuffer.new) ≤ 512 :=
  (checked_ops_cursor_bound BytePacketBuffer.new 0 (by decide)).1

/-- Decoding the first flag byte recovers the five fields it encodes, for
every opcode below 16 and every combination of the four bits. -/
theorem firstFlags_decode :
    ∀ op, op < 16 → ∀ r aa tc rd : Bool,
      ((((bitOf r <<< 7) ||| ((op <<< 3) % 256) ||| (bitOf aa <<< 2) |||
          (bitOf tc <<< 1) ||| bitOf rd) &&& 128) == 128) = r ∧
      ((((bitOf r <<< 7) ||| ((op <<< 3) % 256) ||| (bitOf aa <<< 2) |||
          (bitOf tc <<< 1) ||| bitOf rd) &&& 120) >>> 3) = op ∧
      ((((bitOf r <<< 7) ||| ((op <<< 3) % 256) ||| (bitOf aa <<< 2) |||
          (bitOf tc <<< 1) ||| bitOf rd) &&& 4) == 4) = aa ∧
      ((((bitOf r <<< 7) ||| ((op <<< 3) % 256) ||| (bitOf aa <<< 2) |||
          (bitOf tc <<< 1) ||| bitOf rd) &&& 2) == 2) = tc ∧
      ((((bitOf r <<< 7) ||| ((op <<< 3) % 256) ||| (bitOf aa <<< 2) |||
          (bitOf tc <<< 1) ||| bitOf rd) &&& 1) == 1) = rd := by
  decide

/-- Decoding the second flag byte recovers the five fields it encodes, for
every result code and every combination of the four bits. -/
theorem secondFlags_decode :
    ∀ rc : ResultCode, ∀ ra z ad cd : Bool,
      (((rc.toNum ||| (bitOf cd <<< 4) ||| (bitOf ad <<< 5) ||| (bitOf z <<< 6) |||
          (bitOf ra <<< 7)) &&& 128) == 128) = ra ∧
      decide (0 < (rc.toNum ||| (bitOf cd <<< 4) ||| (bitOf ad <<< 5) ||| (bitOf z <<< 6) |||
          (bitOf ra <<< 7)) &&& 64) = z ∧
      decide (0 < (rc.toNum ||| (bitOf cd <<< 4) ||| (bitOf ad <<< 5) ||| (bitOf z <<< 6) |||
          (bitOf ra <<< 7)) &&& 16) = cd ∧
      decide (0 < (rc.toNum ||| (bitOf cd <<< 4) ||| (bitOf ad <<< 5) ||| (bitOf z <<< 6) |||
          (bitOf ra <<< 7)) &&& 32) = ad ∧
      ResultCode.from_num ((rc.toNum ||| (bitOf cd <<< 4) ||| (bitOf ad <<< 5) |||
          (bitOf z <<< 6) ||| (bitOf ra <<< 7)) &&& 0x0F) = rc := by
  intro rc
  cases rc <;> decide

/-- C9: for every header whose opcode is below 16 (response codes are the
four `ResultCode` values, all below 16), assembling the two flag bytes as
`DnsHeader::write` does and applying the field assignments of
`DnsHeader::read` to any starting header reproduces all ten flag fields
exactly. -/
theorem header_flags_roundtrip (h h0 : DnsHeader) (hop : h.opcode < 16) :
    ((h0.applyFirstFlags h.firstFlags).applySecondFlags h.secondFlags).response = h.response ∧
    ((h0.applyFirstFlags h.firstFlags).applySecondFlags h.secondFlags).opcode = h.opcode ∧
    ((h0.applyFirstFlags h.firstFlags).applySecondFlags h.secondFlags).authoritative_answer =
      h.authoritative_answer ∧
    ((h0.applyFirstFlags h.firstFlags).applySecondFlags h.secondFlags).truncated_message =
      h.truncated_message ∧
    ((h0.applyFirstFlags h.firstFlags).applySecondFlags h.secondFlags).recursion_desired =
      h.recursion_desired ∧
    ((h0.applyFirstFlags h.firstFlags).applySecondFlags h.secondFlags).recursion_available =
      h.recursion_available ∧
    ((h0.applyFirstFlags h.firstFlags).applySecondFlags h.secondFlags).z = h.z ∧
    ((h0.applyFirstFlags h.firstFlags).applySecondFlags h.secondFlags).authed_data =
      h.authed_data ∧
    ((h0.applyFirstFlags h.firstFlags).applySecondFlags h.secondFlags).checking_disabled =
      h.checking_disabled ∧
    ((h0.applyFirstFlags h.firstFlags).applySecondFlags h.secondFlags).rescode = h.rescode := by
  have hf := firstFlags_decode h.opcode hop h.response h.authoritative_answer
    h.truncated_message h.recursion_desired
  have hs := secondFlags_decode h.rescode h.recursion_available h.z h.authed_data
    h.checking_disabled
  simp only [DnsHeader.firstFlags, DnsHeader.secondFlags] at hf hs
  simp only [DnsHeader.applyFirstFlags, DnsHeader.applySecondFlags, DnsHeader.firstFlags,
    DnsHeader.secondFlags]
  exact ⟨hf.1, hf.2.1, hf.2.2.1, hf.2.2.2.1, hf.2.2.2.2, hs.1, hs.2.1, hs.2.2.2.1, hs.2.2.1,
    hs.2.2.2.2⟩

/-- C9 witness: the example header of the spec (response, opcode 0, recursion
desired) round-trips from the all-zero starting header. -/
theorem header_flags_roundtrip_witness :
    ((DnsHeader.new.applyFirstFlags exampleHeader.firstFlags).applySecondFlags
        exampleHeader.secondFlags).response = exampleHeader.response ∧
    ((DnsHeader.new.applyFirstFlags exampleHeader.firstFlags).applySecondFlags
        exampleHeader.secondFlags).opcode = exampleHeader.opcode ∧
    ((DnsHeader.new.applyFirstFlags exampleHeader.firstFlags).applySecondFlags
        exampleHeader.secondFlags).authoritative_answer = exampleHeader.authoritative_answer ∧
    ((DnsHeader.new.applyFirstFlags exampleHeader.firstFlags).applySecondFlags
        exampleHeader.secondFlags).truncated_message = exampleHeader.truncated_message ∧
    ((DnsHeader.new.applyFirstFlags exampleHeader.firstFlags).applySecondFlags
        exampleHeader.secondFlags).recursion_desired = exampleHeader.recursion_desired ∧
    ((DnsHeader.new.applyFirstFlags exampleHeader.firstFlags).applySecondFlags
        exampleHeader.secondFlags).recursion_available = exampleHeader.recursion_available ∧
    ((DnsHeader.new.applyFirstFlags exampleHeader.firstFlags).applySecondFlags
        exampleHeader.secondFlags).z = exampleHeader.z ∧
    ((DnsHeader.new.applyFirstFlags exampleHeader.firstFlags).applySecondFlags
        exampleHeader.secondFlags).authed_data = exampleHeader.authed_data ∧
    ((DnsHeader.new.applyFirstFlags exampleHeader.firstFlags).applySecondFlags
        exampleHeader.secondFlags).checking_disabled = exampleHeader.checking_disabled ∧
    ((DnsHeader.new.applyFirstFlags exampleHeader.firstFlags).applySecondFlags
        exampleHeader.secondFlags).rescode = exampleHeader.rescode :=
  header_flags_roundtrip exampleHeader DnsHeader.new (by decide)

/-- C2 amended: at a glueless referral (no final answer, no NXDOMAIN, no
glued address, a candidate NS host present), an ERROR of the nested
`recursive_lookup(host, A)` call propagates to the caller through the `?`
operator; only a nested lookup that SUCCEEDS while carrying no A record
makes the resolver return the original referral response. -/
theorem nested_lookup_fallback_amended (lk : LookupFn) (fuel : Nat) (qname : StrB)
    (qtype : RecordType) (ns : Ipv4Addr) (response : DnsPacket) (host : StrB)
    (hlk : lk qname qtype ns = .ok response)
    (hfinal : ¬(response.answers ≠ [] ∧ response.header.rescode = ResultCode.NOERROR))
    (hnx : ¬response.header.rescode = ResultCode.NXDOMAIN)
    (hres : response.get_resolved_ns qname = none)
    (hunres : response.get_unresolved_ns qname = some host) :
    (∀ e, recursive_lookupF lk fuel host .A rootServer = .error e →
      recursive_lookupF lk (fuel + 1) qname qtype ns = .error e) ∧
    (∀ r, recursive_lookupF lk fuel host .A rootServer = .ok r →
      r.get_random_a = none →
      recursive_lookupF lk (fuel + 1) qname qtype ns = .ok response) := by
  constructor
  · intro e he
    simp only [recursive_lookupF, hlk, if_neg hfinal, if_neg hnx, hres, hunres, he]
  · intro r hr hnoa
    simp only [recursive_lookupF, hlk, if_neg hfinal, if_neg hnx, hres, hunres, hr, hnoa]

/-- C2 witness: a concrete glueless referral for the name `q` whose
candidate host `h` resolves to a packet without any A record makes the
resolver return the original referral. -/
theorem nested_lookup_fallback_witness :
    recursive_lookupF lkW 2 qnameQW .A rootServer = .ok referralW :=
  (nested_lookup_fallback_amended lkW 1 qnameQW .A rootServer referralW [104]
      (by decide) (by decide) (by decide) (by decide) (by decide)).2
    noArecordPkt (by decide) (by decide)

/-- A failed request decode propagates out of `handle_query` unchanged: no
response of any kind is produced. -/
theorem hq_decode_error (resolve : ResolveFn) (reqBuf : BytePacketBuffer) (e : RErr)
    (b2 : BytePacketBuffer) (h : DnsPacket.from_buffer reqBuf = .err e b2) :
    handle_query resolve reqBuf = .error e := by
  unfold handle_query
  rw [h]

/-- A successfully decoded request with no questions is answered, for any
resolver oracle, by exactly the FORMERR reply carrying the request id. -/
theorem hq_formerr (resolve : ResolveFn) (reqBuf : BytePacketBuffer) (request : DnsPacket)
    (b2 : BytePacketBuffer) (h : DnsPacket.from_buffer reqBuf = .ok request b2)
    (hq : request.questions = []) :
    handle_query resolve reqBuf = .ok (formerrReply request.header.id) := by
  obtain ⟨hdr, qs, ans, auth, res⟩ := request
  simp only [DnsPacket.questions] at hq
  subst hq
  unfold handle_query
  rw [h]
  rfl

/-- The serve loop stops with the decode error of a malformed datagram:
no response is sent for it and no later datagram is processed. -/
theorem serveAll_decode_error (resolve : ResolveFn) (reqBuf : BytePacketBuffer)
    (rest : List BytePacketBuffer) (e : RErr) (b2 : BytePacketBuffer)
    (h : DnsPacket.from_buffer reqBuf = .err e b2) :
    serveAll resolve (reqBuf :: rest) = .error e := by
  simp only [serveAll, hq_decode_error resolve reqBuf e b2 h]

/-- The serve loop answers a question-less request with the FORMERR reply
and continues with the remaining datagrams. -/
theorem serveAll_formerr (resolve : ResolveFn) (reqBuf : BytePacketBuffer)
    (rest : List BytePacketBuffer) (request : DnsPacket) (b2 : BytePacketBuffer)
    (h : DnsPacket.from_buffer reqBuf = .ok request b2) (hq : request.questions = []) :
    serveAll resolve (reqBuf :: rest) =
      match serveAll resolve rest with
      | .error e => .error e
      | .ok outs => .ok (formerrReply request.header.id :: outs) := by
  simp only [serveAll, hq_formerr resolve reqBuf request b2 h hq]

/-- C3 amended: only a request that DECODES SUCCESSFULLY with an empty
question list is answered with one FORMERR response carrying the request
id, independently of the resolver oracle (no upstream query), and the
service then continues with later datagrams; a request whose decode FAILS
produces no response at all — `handle_query` returns the decode error and
the serve loop stops with it. -/
theorem handle_query_formerr_amended :
    (∀ (resolve : ResolveFn) (reqBuf : BytePacketBuffer) (e : RErr) (b2 : BytePacketBuffer),
      DnsPacket.from_buffer reqBuf = .err e b2 →
        handle_query resolve reqBuf = .error e) ∧
    (∀ (resolve : ResolveFn) (reqBuf : BytePacketBuffer) (request : DnsPacket)
        (b2 : BytePacketBuffer),
      DnsPacket.from_buffer reqBuf = .ok request b2 → request.questions = [] →
        handle_query resolve reqBuf = .ok (formerrReply request.header.id) ∧
        (formerrReply request.header.id).1.header.rescode = ResultCode.FORMERR ∧
        (formerrReply request.header.id).1.header.id = request.header.id ∧
        handle_query resolve reqBuf = handle_query neverResolve reqBuf) ∧
    (∀ (resolve : ResolveFn) (reqBuf : BytePacketBuffer) (rest : List BytePacketBuffer)
        (e : RErr) (b2 : BytePacketBuffer),
      DnsPacket.from_buffer reqBuf = .err e b2 →
        serveAll resolve (reqBuf :: rest) = .error e) ∧
    (∀ (resolve : ResolveFn) (reqBuf : BytePacketBuffer) (rest : List BytePacketBuffer)
        (request : DnsPacket) (b2 : BytePacketBuffer),
      DnsPacket.from_buffer reqBuf = .ok request b2 → request.questions = [] →
        serveAll resolve (reqBuf :: rest) =
          match serveAll resolve rest with
          | .error e => .error e
          | .ok outs => .ok (formerrReply request.header.id :: outs)) := by
  refine ⟨hq_decode_error, ?_, serveAll_decode_error, serveAll_formerr⟩
  intro resolve reqBuf request b2 h hq
  refine ⟨hq_formerr resolve reqBuf request b2 h hq, rfl, rfl, ?_⟩
  rw [hq_formerr resolve reqBuf request b2 h hq, hq_formerr neverResolve reqBuf request b2 h hq]

/-- C3 witness: the all-zero request (id 0, no questions) is answered with
the FORMERR reply of id 0, through a resolver oracle that refuses every
upstream query; concretely that reply is the FORMERR skeleton and its
12-byte encoding. -/
theorem handle_query_formerr_amended_witness :
    handle_query neverResolve zeroBuf = .ok (formerrReply 0) :=
  (handle_query_formerr_amended.2.1 neverResolve zeroBuf DnsPacket.new ⟨zeroBuf.buf, 12⟩
    (by decide) (by decide)).1

/-- One-step unfolding of `vecPop` on a nonempty list. -/
theorem vecPop_cons (a : α) (as : List α) :
    vecPop (a :: as) =
      match vecPop as with
      | none => some (a, [])
      | some (l2, rest) => some (l2, a :: rest) := by
  cases h2 : vecPop as with
  | none => simp only [vecPop, h2]
  | some p => simp only [vecPop, h2]

/-- `vecPop` of a nonempty list always returns an element. -/
theorem vecPop_cons_ne_none (a : α) (as : List α) : vecPop (a :: as) ≠ none := by
  rw [vecPop_cons]
  cases h2 : vecPop as with
  | none => simp
  | some p => simp

/-- `Vec::pop` returns the LAST element of the list, together with the
remaining prefix. -/
theorem vecPop_getLast (l : List α) (x : α) (r : List α) (h : vecPop l = some (x, r)) :
    l.getLast? = some x := by
  induction l generalizing x r with
  | nil => simp [vecPop] at h
  | cons a as ih =>
    cases as with
    | nil =>
      simp only [vecPop] at h
      cases h
      rfl
    | cons b bs =>
      rw [List.getLast?_cons_cons]
      cases hbs : vecPop (b :: bs) with
      | none => exact absurd hbs (vecPop_cons_ne_none b bs)
      | some pair =>
        obtain ⟨y, ys⟩ := pair
        rw [vecPop_cons, hbs] at h
        cases h
        exact ih _ _ hbs

/-- On success, `DnsPacket::write` hands back the packet with its counts
fixed up and nothing else changed. -/
theorem dnsPacket_write_val (p : DnsPacket) (b : BytePacketBuffer) (res : DnsPacket)
    (b2 : BytePacketBuffer) (h : DnsPacket.write p b = .ok res b2) : res = p.withCounts := by
  unfold DnsPacket.write at h
  repeat' split at h
  all_goals first
    | (exact (RRes.noConfusion h))
    | (injection h with h1 h2; exact h1.symm)

/-- `handle_query` consults the resolver only on the POPPED (last)
question: two oracles that agree there produce identical behavior. -/
theorem hq_resolve_agree (resolve resolve2 : ResolveFn) (reqBuf : BytePacketBuffer)
    (request : DnsPacket) (b2 : BytePacketBuffer) (lastq : DnsQuestions)
    (rest : List DnsQuestions) (h : DnsPacket.from_buffer reqBuf = .ok request b2)
    (hv : vecPop request.questions = some (lastq, rest))
    (hagree : resolve lastq.name lastq.qtype = resolve2 lastq.name lastq.qtype) :
    handle_query resolve reqBuf = handle_query resolve2 reqBuf := by
  unfold handle_query
  rw [h]
  simp only [hv, hagree]

/-- When the resolver answers the popped question, the response packet
sent back carries exactly that question — the last of the request. -/
theorem hq_answers_popped (resolve : ResolveFn) (reqBuf : BytePacketBuffer)
    (request : DnsPacket) (b2 : BytePacketBuffer) (lastq : DnsQuestions)
    (rest : List DnsQuestions) (result : DnsPacket)
    (h : DnsPacket.from_buffer reqBuf = .ok request b2)
    (hv : vecPop request.questions = some (lastq, rest))
    (hr : resolve lastq.name lastq.qtype = .ok result) :
    ∀ p bout, handle_query resolve reqBuf = .ok (p, bout) → p.questions = [lastq] := by
  intro p bout hq
  unfold handle_query at hq
  rw [h] at hq
  simp only [hv, hr] at hq
  cases hw : DnsPacket.write
      { DnsPacket.new with
        header :=
          { DnsPacket.new.header with
            id := request.header.id
            recursion_desired := true
            recursion_available := true
            response := true
            rescode := result.header.rescode }
        questions := [lastq]
        answers := result.answers
        authorities := result.authorities
        resources := result.resources } BytePacketBuffer.new with
  | ok pw bw =>
    rw [hw] at hq
    injection hq with hpair
    have hres := dnsPacket_write_val _ _ _ _ hw
    have hp : p = pw := congrArg Prod.fst hpair.symm
    rw [hp, hres]
    rfl
  | err e bw =>
    rw [hw] at hq
    exact Except.noConfusion hq

/-- C5 amended: the question the Query Service answers is the LAST
question of the decoded request (`Vec::pop` removes the last element),
which coincides with the first question only when the request has exactly
one: the resolver is consulted only on it, and on resolver success the
response copies exactly it. -/
theorem answered_question_is_last :
    (∀ (l : List DnsQuestions) (x : DnsQuestions) (r : List DnsQuestions),
      vecPop l = some (x, r) → l.getLast? = some x) ∧
    (∀ (resolve resolve2 : ResolveFn) (reqBuf : BytePacketBuffer) (request : DnsPacket)
        (b2 : BytePacketBuffer) (lastq : DnsQuestions) (rest : List DnsQuestions),
      DnsPacket.from_buffer reqBuf = .ok request b2 →
      vecPop request.questions = some (lastq, rest) →
      resolve lastq.name lastq.qtype = resolve2 lastq.name lastq.qtype →
      handle_query resolve reqBuf = handle_query resolve2 reqBuf) ∧
    (∀ (resolve : ResolveFn) (reqBuf : BytePacketBuffer) (request : DnsPacket)
        (b2 : BytePacketBuffer) (lastq : DnsQuestions) (rest : List DnsQuestions)
        (result : DnsPacket),
      DnsPacket.from_buffer reqBuf = .ok request b2 →
      vecPop request.questions = some (lastq, rest) →
      resolve lastq.name lastq.qtype = .ok result →
      ∀ p bout, handle_query resolve reqBuf = .ok (p, bout) → p.questions = [lastq]) :=
  ⟨vecPop_getLast, hq_resolve_agree, hq_answers_popped⟩

/-- C5 witness: popping the two-question list returns the second (last)
question. -/
theorem answered_question_is_last_witness :
    [questionAA, questionBB].getLast? = some questionBB :=
  answered_question_is_last.1 [questionAA, questionBB] questionBB [questionAA] (by decide)
